import Mathlib

/-!
Shallow embedding of `src/static/dashboard.js` (client-side dashboard glue for
a sentiment-analysis web app), together with proofs about the claims of the
specification.  DOM manipulation is modelled as an explicit effect trace plus
a small DOM state; the backend is modelled as an explicit fetch outcome passed
to each flow; the chart registry (`chartInstances`) is modelled as explicit
state.
-/

/-! ## Tweet-id extraction (`extractTweetId`, dashboard.js lines 43-47) -/

/-- The constant character pattern of the regex literal before the capture
group: the text of the regex `status\/`. -/
def statusPat : List Char := ['s', 't', 'a', 't', 'u', 's', '/']

/-- `leadsList p l` is true when the character list `l` starts with `p`. -/
def leadsList : List Char → List Char → Bool
  | [], _ => true
  | _ :: _, [] => false
  | a :: as, b :: bs => a == b && leadsList as bs

/-- The maximal run of decimal digits at the front of a character list; this
models the greedy capture group `(\d+)` of the regex. -/
def digitRun : List Char → List Char
  | [] => []
  | c :: cs => if c.isDigit then c :: digitRun cs else []

/-- Attempt to match the regex `status\/(\d+)` at the very start of `l`,
returning the capture group on success. -/
def tryMatch (l : List Char) : Option (List Char) :=
  if leadsList statusPat l then
    match digitRun (List.drop 7 l) with
    | [] => none
    | c :: cs => some (c :: cs)
  else none

/-- Scan left to right for the first index where `status\/(\d+)` matches,
returning its capture group.  This models `input.match(/status\/(\d+)/)`. -/
def findStatusMatch : List Char → Option (List Char)
  | [] => none
  | c :: cs =>
    match tryMatch (c :: cs) with
    | some r => some r
    | none => findStatusMatch cs

/-- dashboard.js lines 43-47:
`const match = input.match(/status\/(\d+)/); return match ? match[1] : input;` -/
def extractTweetId (input : String) : String :=
  match findStatusMatch input.data with
  | some r => String.mk r
  | none => input

/-- Whether a character list starts with a decimal digit. -/
def headDigit : List Char → Bool
  | [] => false
  | c :: _ => c.isDigit

/-- Specification-side predicate: the pattern `status/` immediately followed
by at least one decimal digit occurs at index `i` of `l`. -/
def patternAt (l : List Char) (i : Nat) : Bool :=
  leadsList statusPat (List.drop i l) && headDigit (List.drop (i + 7) l)

/-- `hasSub sub l` is true when `sub` occurs as a contiguous run inside `l`. -/
def hasSub (sub : List Char) : List Char → Bool
  | [] => leadsList sub []
  | c :: cs => leadsList sub (c :: cs) || hasSub sub cs

/-! ## Number and date rendering helpers used by the templates -/

/-- Decimal rendering of an integer `n` of tenths as `n/10 "." n%10`. -/
def intTenths (n : Int) : String := toString (n / 10) ++ "." ++ toString (n % 10)

/-- Models JavaScript `x.toFixed(1)` for a non-negative numeric value:
round to the nearest tenth and print with one decimal place. -/
def fixed1 (q : ℚ) : String := intTenths ⌊q * 10 + 1 / 2⌋

/-- Models template interpolation of a JavaScript numeric value.  Faithful for
integral values, which print as plain decimals; for non-integral doubles
JavaScript uses shortest-round-trip printing, which is not modelled (no claim
evaluates this branch), so a fraction rendering stands in. -/
def jsNum (q : ℚ) : String :=
  if q.den = 1 then toString q.num else toString q.num ++ "/" ++ toString q.den

/-- Models `Number.prototype.toLocaleString()`; locale-dependent digit
grouping is environment data and is not modelled, plain decimal rendering
stands in. -/
def jsLocaleNum (n : Int) : String := toString n

/-- Models `new Date(s).toLocaleDateString()`; timezone- and locale-dependent
date formatting is environment data and is not modelled, the raw timestamp
string stands in. -/
def jsLocaleDate (s : String) : String := s

/-- Models `String.prototype.toLowerCase()` by lowering each character
(ASCII-faithful; the sentiment labels it is applied to are ASCII). -/
def jsToLower (s : String) : String := String.mk (s.data.map Char.toLower)

/-! ## Requests, backend responses and DOM effects -/

/-- A JSON scalar appearing in a request body built by `JSON.stringify`. -/
inductive JVal where
  | str (s : String)
  | num (n : Int)
deriving DecidableEq

/-- One `fetch` request: endpoint path and the JSON body fields in order. -/
structure ApiReq where
  endpoint : String
  body : List (String × JVal)
deriving DecidableEq

/-- Chart-ready series are opaque backend data consumed only by the chart
renderer; they are modelled as tokens. -/
abbrev ChartData := String

/-- A DOM/render effect performed by the dashboard code, in program order.
`showError` is dashboard.js lines 25-29 (sets `textContent` and adds the
`active` class); `hideError`, `showLoading`, `hideLoading`, `showResults`,
`hideResults` are lines 17-41 (toggle the `active` class); `setHTML` is an
`innerHTML` assignment; `chart` is a `createChart(canvasId, type, data)`
call; `consoleError` is a `console.error` diagnostic log. -/
inductive DomEffect where
  | showLoading (id : String)
  | hideLoading (id : String)
  | showError (id : String) (msg : String)
  | hideError (id : String)
  | showResults (id : String)
  | hideResults (id : String)
  | setHTML (id : String) (html : String)
  | chart (canvasId : String) (ctype : String) (data : ChartData)
  | consoleError (msg : String)
deriving DecidableEq

/-- The modelled state of one DOM element: its `textContent`, its
`innerHTML`, and whether it carries the `active` class. -/
structure DomElem where
  text : String
  html : String
  active : Bool
deriving DecidableEq

/-- The DOM, as a total map from element id to element state. -/
def DomState := String → DomElem

/-- Pointwise update of one element of the DOM. -/
def updElem (d : DomState) (i : String) (f : DomElem → DomElem) : DomState :=
  fun j => if j = i then f (d j) else d j

/-- The action of one effect on the DOM (requests, chart construction and
console logging do not change element state). -/
def applyEffect (d : DomState) : DomEffect → DomState
  | .showLoading i => updElem d i (fun e => { e with active := true })
  | .hideLoading i => updElem d i (fun e => { e with active := false })
  | .showError i m => updElem d i (fun e => { e with text := m, active := true })
  | .hideError i => updElem d i (fun e => { e with active := false })
  | .showResults i => updElem d i (fun e => { e with active := true })
  | .hideResults i => updElem d i (fun e => { e with active := false })
  | .setHTML i h => updElem d i (fun e => { e with html := h })
  | .chart _ _ _ => d
  | .consoleError _ => d

/-- Run a trace of effects over the DOM in program order. -/
def applyEffects (d : DomState) (l : List DomEffect) : DomState :=
  l.foldl applyEffect d

/-- A backend JSON response: the `success` flag, the `error` field used by
failure branches, and the feature-specific payload fields used by success
branches. -/
structure ApiResp (α : Type) where
  success : Bool
  error : String
  payload : α

/-- Outcome of one `fetch`: a transport-level failure caught by the `catch`
block (carrying the exception message), or a parsed JSON response. -/
inductive FetchOutcome (α : Type) where
  | fail (msg : String)
  | ok (resp : ApiResp α)

/-! ## Backend payload shapes (spec section 6) -/

/-- `user_info` payload of `/api/user-info`. -/
structure UserInfo where
  username : String
  tweet_count : Int
  followers_count : Int
  following_count : Int
  name : String
  verified : Bool
  description : Option String
  created_at : String

/-- One categorized tweet of `/api/user-tweets`. -/
structure Tweet where
  id : String
  confidence : ℚ
  created_at : String
  text : String
  likes : Int
  retweets : Int
  replies : Int

/-- Aggregate sentiment statistics (`stats` of user-tweets / search). -/
structure SentStats where
  total : Int
  positive_pct : ℚ
  neutral_pct : ℚ
  negative_pct : ℚ

/-- `categorized` field of `/api/user-tweets`. -/
structure Categorized where
  positive : List Tweet
  neutral : List Tweet
  negative : List Tweet

/-- `charts` field with a pie chart and an optional engagement chart. -/
structure PieEngCharts where
  pie_chart : ChartData
  engagement : Option ChartData

/-- Payload of `/api/user-tweets`. -/
structure TweetsPayload where
  stats : SentStats
  categorized : Categorized
  charts : PieEngCharts

/-- `tweet` field of `/api/tweet-replies`. -/
structure TweetDetails where
  text : String
  likes : Int
  retweets : Int
  replies : Int

/-- `sentiment_stats` field of `/api/tweet-replies`. -/
structure ReplyStats where
  positive_pct : ℚ
  neutral_pct : ℚ
  negative_pct : ℚ
  avg_confidence : ℚ

/-- One analyzed reply of `/api/tweet-replies`. -/
structure AnalyzedReply where
  sentiment : String
  confidence : ℚ
  text : String

/-- `reply_analysis` field of `/api/tweet-replies`. -/
structure ReplyAnalysis where
  total_replies : Int
  sentiment_stats : ReplyStats
  analyzed_replies : List AnalyzedReply

/-- `charts` field of `/api/tweet-replies`; both the `charts` object itself
and its `sentiment_distribution` member may be absent. -/
structure ReplyCharts where
  sentiment_distribution : Option ChartData

/-- Payload of `/api/tweet-replies`. -/
structure ReplyPayload where
  tweet : TweetDetails
  reply_analysis : ReplyAnalysis
  charts : Option ReplyCharts

/-- `info` field of one side of `/api/compare-users`. -/
structure CompareUserInfo where
  username : String

/-- Per-side sentiment percentages of the comparison endpoints. -/
structure CompareStats where
  positive_pct : ℚ
  neutral_pct : ℚ
  negative_pct : ℚ

/-- One side (`user1` / `user2`) of `/api/compare-users`. -/
structure CompareSide where
  info : CompareUserInfo
  stats : CompareStats

/-- `charts` field of `/api/compare-users`. -/
structure CompareUsersCharts where
  profile_comparison : ChartData
  sentiment_comparison : ChartData

/-- Payload of `/api/compare-users`. -/
structure CompareUsersPayload where
  user1 : CompareSide
  user2 : CompareSide
  charts : CompareUsersCharts

/-- `details` field of one side of `/api/compare-tweets`. -/
structure TweetTextDetails where
  text : String

/-- One side (`tweet1` / `tweet2`) of `/api/compare-tweets`. -/
structure TweetSide where
  details : TweetTextDetails
  stats : CompareStats

/-- `charts` field of `/api/compare-tweets`. -/
structure CompareTweetsCharts where
  comparison : ChartData

/-- Payload of `/api/compare-tweets`. -/
structure CompareTweetsPayload where
  tweet1 : TweetSide
  tweet2 : TweetSide
  charts : CompareTweetsCharts

/-- Payload of `/api/search-analyze`. -/
structure SearchPayload where
  query : String
  stats : SentStats
  charts : PieEngCharts

/-- Payload of `/api/test-sentiment` (fields live on the response object). -/
structure TestPayload where
  sentiment : String
  confidence : Int
  text : String
  cleaned_text : String

/-! ## Profile flow (dashboard.js lines 50-114) -/

/-- Models `user.description || 'No description'`: in JavaScript both an
absent and an empty description are falsy and fall back to the placeholder. -/
def descOr : Option String → String
  | none => "No description"
  | some d => if d = "" then "No description" else d

/-- The template literal of `displayUserProfile` (lines 84-110). -/
def profileHtml (user : UserInfo) : String :=
  "\n        <div class=\"stats-grid\">\n            <div class=\"stat-card\">\n                <h3>Username</h3>\n                <div class=\"value\" style=\"font-size: 1.5em;\">@" ++ user.username ++
  "</div>\n            </div>\n            <div class=\"stat-card\">\n                <h3>Total Posts</h3>\n                <div class=\"value\">" ++ jsLocaleNum user.tweet_count ++
  "</div>\n            </div>\n            <div class=\"stat-card\">\n                <h3>Followers</h3>\n                <div class=\"value\">" ++ jsLocaleNum user.followers_count ++
  "</div>\n            </div>\n            <div class=\"stat-card\">\n                <h3>Following</h3>\n                <div class=\"value\">" ++ jsLocaleNum user.following_count ++
  "</div>\n            </div>\n        </div>\n        <div class=\"chart-container\">\n            <h3>" ++ user.name ++ " " ++ (if user.verified then "✓" else "") ++
  "</h3>\n            <p style=\"color: #666; margin-top: 10px;\">" ++ descOr user.description ++
  "</p>\n            <p style=\"color: #999; margin-top: 10px; font-size: 0.9em;\">\n                Joined: " ++ jsLocaleDate user.created_at ++
  "\n            </p>\n        </div>\n    "

/-- `displayUserProfile` (lines 83-114): set the result markup and show it. -/
def displayUserProfile (user : UserInfo) : List DomEffect :=
  [.setHTML "profileResults" (profileHtml user), .showResults "profileResults"]

/-- The synchronous part of `getUserProfile` (lines 50-61): validation and
the pre-request DOM effects; returns the request to be issued, or `none`
when the flow aborts on empty input. -/
def getUserProfileStart (username : String) : List DomEffect × Option ApiReq :=
  if username = "" then
    ([.showError "profileError" "Please enter a username"], none)
  else
    ([.showLoading "profileLoading", .hideError "profileError", .hideResults "profileResults"],
      some ⟨"/api/user-info", [("username", .str username)]⟩)

/-- The part of `getUserProfile` after the `fetch` (lines 62-80). -/
def getUserProfileResume (oc : FetchOutcome UserInfo) : List DomEffect :=
  match oc with
  | .fail m => [.hideLoading "profileLoading", .showError "profileError" ("Error: " ++ m)]
  | .ok data =>
    .hideLoading "profileLoading" ::
      (if data.success then displayUserProfile data.payload
       else [.showError "profileError" data.error])

/-- One complete run of the profile flow for a given fetch outcome. -/
def getUserProfileRun (username : String) (oc : FetchOutcome UserInfo) :
    List DomEffect × Option ApiReq :=
  match getUserProfileStart username with
  | (fx, none) => (fx, none)
  | (fx, some req) => (fx ++ getUserProfileResume oc, some req)

/-! ## User-tweets flow (dashboard.js lines 117-222) -/

/-- One tweet card of `displayUserTweets` (lines 193-208). -/
def tweetCard (sentiment : String) (tweet : Tweet) : String :=
  "\n                    <div class=\"tweet-card\">\n                        <div style=\"display: flex; justify-content: space-between; margin-bottom: 10px;\">\n                            <span class=\"sentiment-badge " ++ sentiment ++ "\">" ++ sentiment ++
  " (" ++ fixed1 (tweet.confidence * 100) ++ "%)</span>\n                            <span style=\"color: #666; font-size: 0.9em;\">" ++ jsLocaleDate tweet.created_at ++
  "</span>\n                        </div>\n                        <p style=\"margin-bottom: 10px;\">" ++ tweet.text ++
  "</p>\n                        <div style=\"color: #999; font-size: 0.9em;\">\n                            ❤️ " ++ toString tweet.likes ++ " | 🔄 " ++ toString tweet.retweets ++ " | 💬 " ++ toString tweet.replies ++
  "\n                            <button class=\"btn\" style=\"float: right; padding: 5px 15px; font-size: 0.8em;\" \n                                    onclick=\"analyzeSpecificTweet(\x27" ++ tweet.id ++
  "\x27)\">\n                                Analyze Replies\n                            </button>\n                        </div>\n                    </div>\n                "

/-- One sentiment section of `displayUserTweets` (lines 188-211): the first
five tweets of the category, preceded by a heading when non-empty. -/
def sentimentSection (sentiment : String) (l : List Tweet) : String :=
  let tweets := l.take 5
  if tweets.length > 0 then
    "<h4 style=\"margin: 15px 0; text-transform: capitalize;\">" ++ sentiment ++ " Tweets:</h4>" ++
      String.join (tweets.map (tweetCard sentiment))
  else ""

/-- The markup built by `displayUserTweets` (lines 152-213). -/
def tweetsHtml (data : TweetsPayload) (username : String) : String :=
  "\n        <h2 style=\"margin-bottom: 20px;\">@" ++ username ++
  "\x27s Tweet Analysis</h2>\n        \n        <div class=\"stats-grid\">\n            <div class=\"stat-card\">\n                <h3>Total Analyzed</h3>\n                <div class=\"value\">" ++ toString data.stats.total ++
  "</div>\n            </div>\n            <div class=\"stat-card\">\n                <h3>Positive</h3>\n                <div class=\"value\">" ++ jsNum data.stats.positive_pct ++
  "%</div>\n            </div>\n            <div class=\"stat-card\">\n                <h3>Neutral</h3>\n                <div class=\"value\">" ++ jsNum data.stats.neutral_pct ++
  "%</div>\n            </div>\n            <div class=\"stat-card\">\n                <h3>Negative</h3>\n                <div class=\"value\">" ++ jsNum data.stats.negative_pct ++
  "%</div>\n            </div>\n        </div>\n        \n        <div class=\"chart-grid\">\n            <div class=\"chart-container\">\n                <canvas id=\"tweetsChart\"></canvas>\n            </div>\n            <div class=\"chart-container\">\n                <canvas id=\"engagementChart\"></canvas>\n            </div>\n        </div>\n        \n        <h3 style=\"margin: 20px 0;\">Recent Tweets by Sentiment</h3>\n        <div class=\"tweets-list\">\n    " ++
  sentimentSection "positive" data.categorized.positive ++
  sentimentSection "neutral" data.categorized.neutral ++
  sentimentSection "negative" data.categorized.negative ++
  "</div>"

/-- `displayUserTweets` (lines 151-222): markup, result region, pie chart and
the optional engagement chart. -/
def displayUserTweets (data : TweetsPayload) (username : String) : List DomEffect :=
  [.setHTML "tweetsResults" (tweetsHtml data username), .showResults "tweetsResults",
   .chart "tweetsChart" "pie" data.charts.pie_chart] ++
  (match data.charts.engagement with
   | some e => [.chart "engagementChart" "bar" e]
   | none => [])

/-- The synchronous part of `getUserTweets` (lines 117-128). -/
def getUserTweetsStart (username maxResults : String) : List DomEffect × Option ApiReq :=
  if username = "" then
    ([.showError "tweetsError" "Please enter a username"], none)
  else
    ([.showLoading "tweetsLoading", .hideError "tweetsError", .hideResults "tweetsResults"],
      some ⟨"/api/user-tweets", [("username", .str username), ("max_results", .str maxResults)]⟩)

/-- The part of `getUserTweets` after the `fetch` (lines 130-148). -/
def getUserTweetsResume (username : String) (oc : FetchOutcome TweetsPayload) : List DomEffect :=
  match oc with
  | .fail m => [.hideLoading "tweetsLoading", .showError "tweetsError" ("Error: " ++ m)]
  | .ok data =>
    .hideLoading "tweetsLoading" ::
      (if data.success then displayUserTweets data.payload username
       else [.showError "tweetsError" data.error])

/-- One complete run of the user-tweets flow. -/
def getUserTweetsRun (username maxResults : String) (oc : FetchOutcome TweetsPayload) :
    List DomEffect × Option ApiReq :=
  match getUserTweetsStart username maxResults with
  | (fx, none) => (fx, none)
  | (fx, some req) => (fx ++ getUserTweetsResume username oc, some req)

/-! ## Reply-analysis flow (dashboard.js lines 225-332) -/

/-- The markup of `displayReplyAnalysis` before the zero-replies branch
(lines 268-278): original tweet and reply-count heading. -/
def replyHeadHtml (data : ReplyPayload) : String :=
  "\n        <div class=\"chart-container\">\n            <h3>Original Tweet</h3>\n            <p style=\"margin: 10px 0;\">" ++ data.tweet.text ++
  "</p>\n            <div style=\"color: #999; font-size: 0.9em;\">\n                ❤️ " ++ toString data.tweet.likes ++ " | 🔄 " ++ toString data.tweet.retweets ++ " | 💬 " ++ toString data.tweet.replies ++
  "\n            </div>\n        </div>\n        \n        <h3 style=\"margin: 20px 0;\">Reply Analysis (" ++ toString data.reply_analysis.total_replies ++
  " replies)</h3>\n    "

/-- One sample-reply card of `displayReplyAnalysis` (lines 311-318). -/
def replyCard (reply : AnalyzedReply) : String :=
  "\n                <div class=\"tweet-card\">\n                    <span class=\"sentiment-badge " ++ jsToLower reply.sentiment ++
  "\">\n                        " ++ reply.sentiment ++ " (" ++ fixed1 (reply.confidence * 100) ++
  "%)\n                    </span>\n                    <p style=\"margin: 10px 0;\">" ++ reply.text ++
  "</p>\n                </div>\n            "

/-- The positive branch of `displayReplyAnalysis` (lines 281-321): sentiment
stats, chart canvas, and the first ten sample replies. -/
def repliesBlock (analysis : ReplyAnalysis) : String :=
  let stats := analysis.sentiment_stats
  "\n            <div class=\"stats-grid\">\n                <div class=\"stat-card\">\n                    <h3>Positive</h3>\n                    <div class=\"value\">" ++ jsNum stats.positive_pct ++
  "%</div>\n                </div>\n                <div class=\"stat-card\">\n                    <h3>Neutral</h3>\n                    <div class=\"value\">" ++ jsNum stats.neutral_pct ++
  "%</div>\n                </div>\n                <div class=\"stat-card\">\n                    <h3>Negative</h3>\n                    <div class=\"value\">" ++ jsNum stats.negative_pct ++
  "%</div>\n                </div>\n                <div class=\"stat-card\">\n                    <h3>Avg Confidence</h3>\n                    <div class=\"value\">" ++ fixed1 (stats.avg_confidence * 100) ++
  "%</div>\n                </div>\n            </div>\n            \n            <div class=\"chart-container\">\n                <canvas id=\"replyChart\"></canvas>\n            </div>\n            \n            <h3 style=\"margin: 20px 0;\">Sample Replies</h3>\n            <div class=\"tweets-list\">\n        " ++
  String.join ((analysis.analyzed_replies.take 10).map replyCard) ++
  "</div>"

/-- The complete markup of `displayReplyAnalysis` (lines 265-326). -/
def replyBodyHtml (data : ReplyPayload) : String :=
  replyHeadHtml data ++
    (if data.reply_analysis.total_replies > 0 then repliesBlock data.reply_analysis
     else "<p>No replies found for this tweet.</p>")

/-- `displayReplyAnalysis` (lines 265-332): markup, result region, and the
chart guarded only by `data.charts && data.charts.sentiment_distribution`. -/
def displayReplyAnalysis (data : ReplyPayload) : List DomEffect :=
  [.setHTML "replyResults" (replyBodyHtml data), .showResults "replyResults"] ++
  (match data.charts with
   | some cs =>
     match cs.sentiment_distribution with
     | some cd => [.chart "replyChart" "pie" cd]
     | none => []
   | none => [])

/-- The synchronous part of `analyzeReplies` (lines 225-236). -/
def analyzeRepliesStart (input : String) : List DomEffect × Option ApiReq :=
  let tweetId := extractTweetId input
  if tweetId = "" then
    ([.showError "replyError" "Please enter a tweet ID or URL"], none)
  else
    ([.showLoading "replyLoading", .hideError "replyError", .hideResults "replyResults"],
      some ⟨"/api/tweet-replies", [("tweet_id", .str tweetId)]⟩)

/-- The part of `analyzeReplies` after the `fetch` (lines 238-256). -/
def analyzeRepliesResume (oc : FetchOutcome ReplyPayload) : List DomEffect :=
  match oc with
  | .fail m => [.hideLoading "replyLoading", .showError "replyError" ("Error: " ++ m)]
  | .ok data =>
    .hideLoading "replyLoading" ::
      (if data.success then displayReplyAnalysis data.payload
       else [.showError "replyError" data.error])

/-- One complete run of the reply-analysis flow. -/
def analyzeRepliesRun (input : String) (oc : FetchOutcome ReplyPayload) :
    List DomEffect × Option ApiReq :=
  match analyzeRepliesStart input with
  | (fx, none) => (fx, none)
  | (fx, some req) => (fx ++ analyzeRepliesResume oc, some req)

/-! ## User-comparison flow (dashboard.js lines 335-405) -/

/-- The markup of `displayUserComparison` (lines 370-398). -/
def compareUsersHtml (data : CompareUsersPayload) : String :=
  "\n        <h2 style=\"margin-bottom: 20px;\">User Comparison</h2>\n        \n        <div class=\"chart-grid\">\n            <div class=\"chart-container\">\n                <h3>Profile Metrics</h3>\n                <canvas id=\"profileCompareChart\"></canvas>\n            </div>\n            <div class=\"chart-container\">\n                <h3>Sentiment Comparison</h3>\n                <canvas id=\"sentimentCompareChart\"></canvas>\n            </div>\n        </div>\n        \n        <div style=\"display: grid; grid-template-columns: 1fr 1fr; gap: 20px;\">\n            <div class=\"chart-container\">\n                <h3>@" ++ data.user1.info.username ++
  "</h3>\n                <p>Positive: " ++ jsNum data.user1.stats.positive_pct ++
  "%</p>\n                <p>Neutral: " ++ jsNum data.user1.stats.neutral_pct ++
  "%</p>\n                <p>Negative: " ++ jsNum data.user1.stats.negative_pct ++
  "%</p>\n            </div>\n            <div class=\"chart-container\">\n                <h3>@" ++ data.user2.info.username ++
  "</h3>\n                <p>Positive: " ++ jsNum data.user2.stats.positive_pct ++
  "%</p>\n                <p>Neutral: " ++ jsNum data.user2.stats.neutral_pct ++
  "%</p>\n                <p>Negative: " ++ jsNum data.user2.stats.negative_pct ++
  "%</p>\n            </div>\n        </div>\n    "

/-- `displayUserComparison` (lines 369-405). -/
def displayUserComparison (data : CompareUsersPayload) : List DomEffect :=
  [.setHTML "compareUsersResults" (compareUsersHtml data), .showResults "compareUsersResults",
   .chart "profileCompareChart" "bar" data.charts.profile_comparison,
   .chart "sentimentCompareChart" "bar" data.charts.sentiment_comparison]

/-- The synchronous part of `compareUsers` (lines 335-346). -/
def compareUsersStart (user1 user2 : String) : List DomEffect × Option ApiReq :=
  if user1 = "" ∨ user2 = "" then
    ([.showError "compareUsersError" "Please enter both usernames"], none)
  else
    ([.showLoading "compareUsersLoading", .hideError "compareUsersError",
      .hideResults "compareUsersResults"],
      some ⟨"/api/compare-users",
        [("username1", .str user1), ("username2", .str user2), ("max_tweets", .num 50)]⟩)

/-- The part of `compareUsers` after the `fetch` (lines 348-366). -/
def compareUsersResume (oc : FetchOutcome CompareUsersPayload) : List DomEffect :=
  match oc with
  | .fail m =>
    [.hideLoading "compareUsersLoading", .showError "compareUsersError" ("Error: " ++ m)]
  | .ok data =>
    .hideLoading "compareUsersLoading" ::
      (if data.success then displayUserComparison data.payload
       else [.showError "compareUsersError" data.error])

/-- One complete run of the user-comparison flow. -/
def compareUsersRun (user1 user2 : String) (oc : FetchOutcome CompareUsersPayload) :
    List DomEffect × Option ApiReq :=
  match compareUsersStart user1 user2 with
  | (fx, none) => (fx, none)
  | (fx, some req) => (fx ++ compareUsersResume oc, some req)

/-! ## Tweet-comparison flow (dashboard.js lines 408-477) -/

/-- The markup of `displayTweetComparison` (lines 443-471). -/
def compareTweetsHtml (data : CompareTweetsPayload) : String :=
  "\n        <h2 style=\"margin-bottom: 20px;\">Tweet Comparison</h2>\n        \n        <div style=\"display: grid; grid-template-columns: 1fr 1fr; gap: 20px; margin-bottom: 20px;\">\n            <div class=\"chart-container\">\n                <h3>Tweet 1</h3>\n                <p>" ++ data.tweet1.details.text ++
  "</p>\n                <p style=\"margin-top: 10px;\">\n                    Positive: " ++ jsNum data.tweet1.stats.positive_pct ++
  "% | \n                    Neutral: " ++ jsNum data.tweet1.stats.neutral_pct ++
  "% | \n                    Negative: " ++ jsNum data.tweet1.stats.negative_pct ++
  "%\n                </p>\n            </div>\n            <div class=\"chart-container\">\n                <h3>Tweet 2</h3>\n                <p>" ++ data.tweet2.details.text ++
  "</p>\n                <p style=\"margin-top: 10px;\">\n                    Positive: " ++ jsNum data.tweet2.stats.positive_pct ++
  "% | \n                    Neutral: " ++ jsNum data.tweet2.stats.neutral_pct ++
  "% | \n                    Negative: " ++ jsNum data.tweet2.stats.negative_pct ++
  "%\n                </p>\n            </div>\n        </div>\n        \n        <div class=\"chart-container\">\n            <h3>Reply Sentiment Comparison</h3>\n            <canvas id=\"tweetCompareChart\"></canvas>\n        </div>\n    "

/-- `displayTweetComparison` (lines 442-477). -/
def displayTweetComparison (data : CompareTweetsPayload) : List DomEffect :=
  [.setHTML "compareTweetsResults" (compareTweetsHtml data), .showResults "compareTweetsResults",
   .chart "tweetCompareChart" "bar" data.charts.comparison]

/-- The synchronous part of `compareTweets` (lines 408-419). -/
def compareTweetsStart (input1 input2 : String) : List DomEffect × Option ApiReq :=
  let tweet1 := extractTweetId input1
  let tweet2 := extractTweetId input2
  if tweet1 = "" ∨ tweet2 = "" then
    ([.showError "compareTweetsError" "Please enter both tweet IDs"], none)
  else
    ([.showLoading "compareTweetsLoading", .hideError "compareTweetsError",
      .hideResults "compareTweetsResults"],
      some ⟨"/api/compare-tweets", [("tweet_id1", .str tweet1), ("tweet_id2", .str tweet2)]⟩)

/-- The part of `compareTweets` after the `fetch` (lines 421-439). -/
def compareTweetsResume (oc : FetchOutcome CompareTweetsPayload) : List DomEffect :=
  match oc with
  | .fail m =>
    [.hideLoading "compareTweetsLoading", .showError "compareTweetsError" ("Error: " ++ m)]
  | .ok data =>
    .hideLoading "compareTweetsLoading" ::
      (if data.success then displayTweetComparison data.payload
       else [.showError "compareTweetsError" data.error])

/-- One complete run of the tweet-comparison flow. -/
def compareTweetsRun (input1 input2 : String) (oc : FetchOutcome CompareTweetsPayload) :
    List DomEffect × Option ApiReq :=
  match compareTweetsStart input1 input2 with
  | (fx, none) => (fx, none)
  | (fx, some req) => (fx ++ compareTweetsResume oc, some req)

/-! ## Search-and-analyze flow (dashboard.js lines 480-556) -/

/-- The markup of `displaySearchResults` (lines 517-547). -/
def searchHtml (data : SearchPayload) : String :=
  "\n        <h2 style=\"margin-bottom: 20px;\">Search Results: \"" ++ data.query ++
  "\"</h2>\n        \n        <div class=\"stats-grid\">\n            <div class=\"stat-card\">\n                <h3>Total Tweets</h3>\n                <div class=\"value\">" ++ toString data.stats.total ++
  "</div>\n            </div>\n            <div class=\"stat-card\">\n                <h3>Positive</h3>\n                <div class=\"value\">" ++ jsNum data.stats.positive_pct ++
  "%</div>\n            </div>\n            <div class=\"stat-card\">\n                <h3>Neutral</h3>\n                <div class=\"value\">" ++ jsNum data.stats.neutral_pct ++
  "%</div>\n            </div>\n            <div class=\"stat-card\">\n                <h3>Negative</h3>\n                <div class=\"value\">" ++ jsNum data.stats.negative_pct ++
  "%</div>\n            </div>\n        </div>\n        \n        <div class=\"chart-grid\">\n            <div class=\"chart-container\">\n                <canvas id=\"searchPieChart\"></canvas>\n            </div>\n            <div class=\"chart-container\">\n                <canvas id=\"searchEngagementChart\"></canvas>\n            </div>\n        </div>\n    "

/-- `displaySearchResults` (lines 514-556). -/
def displaySearchResults (data : SearchPayload) : List DomEffect :=
  [.setHTML "searchResults" (searchHtml data), .showResults "searchResults",
   .chart "searchPieChart" "pie" data.charts.pie_chart] ++
  (match data.charts.engagement with
   | some e => [.chart "searchEngagementChart" "bar" e]
   | none => [])

/-- The synchronous part of `searchAndAnalyze` (lines 480-491). -/
def searchAndAnalyzeStart (query maxResults : String) : List DomEffect × Option ApiReq :=
  if query = "" then
    ([.showError "searchError" "Please enter a search query"], none)
  else
    ([.showLoading "searchLoading", .hideError "searchError", .hideResults "searchResults"],
      some ⟨"/api/search-analyze", [("query", .str query), ("max_results", .str maxResults)]⟩)

/-- The part of `searchAndAnalyze` after the `fetch` (lines 493-511). -/
def searchAndAnalyzeResume (oc : FetchOutcome SearchPayload) : List DomEffect :=
  match oc with
  | .fail m => [.hideLoading "searchLoading", .showError "searchError" ("Error: " ++ m)]
  | .ok data =>
    .hideLoading "searchLoading" ::
      (if data.success then displaySearchResults data.payload
       else [.showError "searchError" data.error])

/-- One complete run of the search-and-analyze flow. -/
def searchAndAnalyzeRun (query maxResults : String) (oc : FetchOutcome SearchPayload) :
    List DomEffect × Option ApiReq :=
  match searchAndAnalyzeStart query maxResults with
  | (fx, none) => (fx, none)
  | (fx, some req) => (fx ++ searchAndAnalyzeResume oc, some req)

/-! ## Sentiment-test flow (dashboard.js lines 559-591) -/

/-- The markup of the success branch of `testSentiment` (lines 574-584). -/
def testHtml (data : TestPayload) : String :=
  "\n                <div class=\"chart-container\" style=\"margin-top: 20px;\">\n                    <div class=\"tweet-card\">\n                        <span class=\"sentiment-badge " ++ jsToLower data.sentiment ++
  "\">\n                            " ++ data.sentiment ++ " (" ++ toString data.confidence ++
  "%)\n                        </span>\n                        <p style=\"margin: 10px 0;\"><strong>Text:</strong> " ++ data.text ++
  "</p>\n                        <p><strong>Cleaned:</strong> " ++ data.cleaned_text ++
  "</p>\n                    </div>\n                </div>\n            "

/-- The synchronous part of `testSentiment` (lines 559-562): empty text
returns silently, with no DOM effect and no request. -/
def testSentimentStart (text : String) : List DomEffect × Option ApiReq :=
  if text = "" then ([], none)
  else ([], some ⟨"/api/test-sentiment", [("text", .str text)]⟩)

/-- The part of `testSentiment` after the `fetch` (lines 564-590): transport
failures are only logged, and a `success=false` response produces no DOM
effect at all. -/
def testSentimentResume (oc : FetchOutcome TestPayload) : List DomEffect :=
  match oc with
  | .fail m => [.consoleError ("Error: " ++ m)]
  | .ok data =>
    if data.success then
      [.setHTML "testResults" (testHtml data.payload), .showResults "testResults"]
    else []

/-- One complete run of the sentiment-test flow. -/
def testSentimentRun (text : String) (oc : FetchOutcome TestPayload) :
    List DomEffect × Option ApiReq :=
  match testSentimentStart text with
  | (fx, none) => (fx, none)
  | (fx, some req) => (fx ++ testSentimentResume oc, some req)

/-! ## Tab switching (dashboard.js lines 5-15) -/

/-- The modelled tab-relevant DOM state: the `active` flag of every element
with class `tab-content` (panels) and of every element with class `tab`
(selector controls), indexed by element id. -/
structure TabDom where
  contentActive : String → Bool
  tabActive : String → Bool

/-- `switchTab(tabName)` (lines 5-15): first remove `active` from every
`.tab-content` and every `.tab`, then add it to the element with id
`tabName + '-tab'` and to `event.target` (the clicked selector). -/
def switchTab (tabName target : String) (_d : TabDom) : TabDom :=
  let cleared : TabDom := { contentActive := fun _ => false, tabActive := fun _ => false }
  { contentActive := fun id => if id = tabName ++ "-tab" then true else cleared.contentActive id,
    tabActive := fun id => if id = target then true else cleared.tabActive id }

/-- The number of ids in `ids` whose flag is set. -/
def countActive (ids : List String) (f : String → Bool) : Nat := (ids.filter f).length

/-! ## Chart registry (dashboard.js lines 3 and 594-615) -/

/-- The modelled chart-library state: `reg` is the `chartInstances` map from
canvas id to the chart object registered for it; chart objects are numbered
by creation order (`nextId` is the next fresh number), `created` is the
history of constructed charts with their canvas, and `destroyed` the set of
chart objects on which `.destroy()` was called.  A chart is live when it was
created and not destroyed. -/
structure ChartSt where
  nextId : Nat
  reg : String → Option Nat
  created : List (String × Nat)
  destroyed : List Nat

/-- `createChart(canvasId, type, chartData)` (lines 594-615): destroy the
chart registered under `canvasId` if any, then construct a fresh chart and
register it under `canvasId`. -/
def createChart (canvasId : String) (st : ChartSt) : ChartSt :=
  let st1 :=
    match st.reg canvasId with
    | some c => { st with destroyed := c :: st.destroyed }
    | none => st
  { nextId := st.nextId + 1,
    reg := fun id => if id = canvasId then some st.nextId else st1.reg id,
    created := (canvasId, st.nextId) :: st1.created,
    destroyed := st1.destroyed }

/-- The live (created and never destroyed) chart objects for a canvas id. -/
def liveCharts (st : ChartSt) (id : String) : List Nat :=
  (st.created.filter (fun p => decide (p.1 = id ∧ p.2 ∉ st.destroyed))).map Prod.snd

/-- The reachable-state invariant of the chart registry: every live chart for
a canvas is the one registered for it; chart numbers are below `nextId`; the
registry only holds created charts. -/
def ChartInv (st : ChartSt) : Prop :=
  (∀ id c, c ∈ liveCharts st id → st.reg id = some c) ∧
  (∀ p ∈ st.created, p.2 < st.nextId) ∧
  (∀ c ∈ st.destroyed, c < st.nextId) ∧
  (∀ id c, st.reg id = some c → (id, c) ∈ st.created)

/-- The initial chart-library state (`let chartInstances = {}`, line 3). -/
def chartSt0 : ChartSt := ⟨0, fun _ => none, [], []⟩

/-! ## Concrete fixtures used by the claim theorems -/

/-- A tweet with fractional confidence 0.873. -/
def tweet873 : Tweet :=
  { id := "1", confidence := 873/1000, created_at := "2024-01-01",
    text := "hello", likes := 1, retweets := 2, replies := 3 }

/-- A reply with fractional confidence 0.873. -/
def reply873 : AnalyzedReply := { sentiment := "Positive", confidence := 873/1000, text := "nice" }

/-- A sentiment-test payload with whole-number confidence 92. -/
def test92 : TestPayload :=
  { sentiment := "Positive", confidence := 92, text := "great", cleaned_text := "great" }

/-- A reply-analysis payload with zero replies whose `charts` field carries a
`sentiment_distribution` series. -/
def replyPayload0chart : ReplyPayload :=
  { tweet := { text := "t", likes := 1, retweets := 2, replies := 3 },
    reply_analysis :=
      { total_replies := 0,
        sentiment_stats := { positive_pct := 0, neutral_pct := 0, negative_pct := 0,
                             avg_confidence := 0 },
        analyzed_replies := [] },
    charts := some { sentiment_distribution := some "dist" } }

/-- A reply-analysis payload with zero replies and no `charts` field. -/
def replyPayload0plain : ReplyPayload :=
  { tweet := { text := "t", likes := 1, retweets := 2, replies := 3 },
    reply_analysis :=
      { total_replies := 0,
        sentiment_stats := { positive_pct := 0, neutral_pct := 0, negative_pct := 0,
                             avg_confidence := 0 },
        analyzed_replies := [] },
    charts := none }

/-- The `sentiment_distribution` series reached through the optional
`charts` field, mirroring the guard
`data.charts && data.charts.sentiment_distribution`. -/
def replySentDist (data : ReplyPayload) : Option ChartData :=
  match data.charts with
  | some cs => cs.sentiment_distribution
  | none => none

/-- A blank DOM: every element empty and inactive. -/
def dom0 : DomState := fun _ => { text := "", html := "", active := false }

/-- A user-info fixture. -/
def uinfo0 : UserInfo :=
  { username := "alice", tweet_count := 10, followers_count := 20, following_count := 30,
    name := "Alice", verified := true, description := some "hi", created_at := "2024-01-01" }

/-- A user-tweets fixture. -/
def tweetsPayload0 : TweetsPayload :=
  { stats := { total := 0, positive_pct := 0, neutral_pct := 0, negative_pct := 0 },
    categorized := { positive := [], neutral := [], negative := [] },
    charts := { pie_chart := "pie", engagement := none } }

/-- A user-comparison fixture. -/
def comparePayload0 : CompareUsersPayload :=
  { user1 := { info := { username := "a" },
               stats := { positive_pct := 0, neutral_pct := 0, negative_pct := 0 } },
    user2 := { info := { username := "b" },
               stats := { positive_pct := 0, neutral_pct := 0, negative_pct := 0 } },
    charts := { profile_comparison := "p", sentiment_comparison := "s" } }

/-- A tweet-comparison fixture. -/
def compareTweetsPayload0 : CompareTweetsPayload :=
  { tweet1 := { details := { text := "t1" },
                stats := { positive_pct := 0, neutral_pct := 0, negative_pct := 0 } },
    tweet2 := { details := { text := "t2" },
                stats := { positive_pct := 0, neutral_pct := 0, negative_pct := 0 } },
    charts := { comparison := "c" } }

/-- A search fixture. -/
def searchPayload0 : SearchPayload :=
  { query := "q",
    stats := { total := 0, positive_pct := 0, neutral_pct := 0, negative_pct := 0 },
    charts := { pie_chart := "pie", engagement := none } }

/-! ## Lemmas about the regex scan -/

theorem tryMatch_nil : tryMatch [] = none := by
  simp [tryMatch, statusPat, leadsList]

theorem digitRun_eq_nil (m : List Char) : digitRun m = [] ↔ headDigit m = false := by
  cases m with
  | nil => simp [digitRun, headDigit]
  | cons c cs => cases hc : c.isDigit <;> simp [digitRun, headDigit, hc]

theorem tryMatch_eq (l : List Char) :
    tryMatch l = if patternAt l 0 = true then some (digitRun (List.drop 7 l)) else none := by
  unfold tryMatch patternAt
  rw [List.drop_zero, Nat.zero_add]
  cases hl : leadsList statusPat l with
  | false => simp
  | true =>
    cases hd : digitRun (List.drop 7 l) with
    | nil =>
      have hh : headDigit (List.drop 7 l) = false := (digitRun_eq_nil _).1 hd
      simp [hh]
    | cons c cs =>
      have hh : headDigit (List.drop 7 l) = true := by
        cases hx : headDigit (List.drop 7 l) with
        | true => rfl
        | false => rw [(digitRun_eq_nil _).2 hx] at hd; exact absurd hd (by simp)
      simp [hh]

theorem patternAt_shift (l : List Char) (i : Nat) :
    patternAt (List.drop i l) 0 = patternAt l i := by
  unfold patternAt
  rw [List.drop_zero, Nat.zero_add, List.drop_drop]

theorem findStatusMatch_none_of (l : List Char)
    (h : ∀ i, tryMatch (List.drop i l) = none) : findStatusMatch l = none := by
  induction l with
  | nil => rfl
  | cons c cs ih =>
    have h0 := h 0
    rw [List.drop_zero] at h0
    simp only [findStatusMatch, h0]
    exact ih fun i => by have := h (i + 1); rwa [List.drop_succ_cons] at this

theorem findStatusMatch_some_of (l : List Char) (i : Nat) (r : List Char)
    (hmin : ∀ j < i, tryMatch (List.drop j l) = none)
    (hi : tryMatch (List.drop i l) = some r) : findStatusMatch l = some r := by
  induction l generalizing i with
  | nil => rw [List.drop_nil] at hi; rw [tryMatch_nil] at hi; exact absurd hi (by simp)
  | cons c cs ih =>
    cases i with
    | zero =>
      rw [List.drop_zero] at hi
      simp only [findStatusMatch, hi]
    | succ k =>
      have h0 := hmin 0 (Nat.succ_pos k)
      rw [List.drop_zero] at h0
      simp only [findStatusMatch, h0]
      rw [List.drop_succ_cons] at hi
      exact ih k
        (fun j hj => by
          have := hmin (j + 1) (Nat.succ_lt_succ hj)
          rwa [List.drop_succ_cons] at this) hi

theorem findStatusMatch_some_imp (l r : List Char) (h : findStatusMatch l = some r) :
    ∃ m, tryMatch m = some r := by
  induction l with
  | nil => exact absurd h (by simp [findStatusMatch])
  | cons c cs ih =>
    cases h1 : tryMatch (c :: cs) with
    | none =>
      simp only [findStatusMatch, h1] at h
      exact ih h
    | some r0 =>
      simp only [findStatusMatch, h1] at h
      exact ⟨c :: cs, h1.trans (by rw [h])⟩

theorem digitRun_digits (m : List Char) : ∀ c ∈ digitRun m, c.isDigit = true := by
  induction m with
  | nil => intro c hc; exact absurd hc (by simp [digitRun])
  | cons a as ih =>
    intro c hc
    unfold digitRun at hc
    by_cases ha : a.isDigit = true
    · rw [if_pos ha] at hc
      rcases List.mem_cons.1 hc with h | h
      · rw [h]; exact ha
      · exact ih c h
    · rw [if_neg ha] at hc; exact absurd hc (by simp)

theorem digits_no_match (l : List Char) (hd : ∀ c ∈ l, c.isDigit = true) :
    ∀ i, tryMatch (List.drop i l) = none := by
  intro i
  cases h : List.drop i l with
  | nil => exact tryMatch_nil
  | cons c cs =>
    have hc : c ∈ l := List.mem_of_mem_drop (h ▸ List.mem_cons_self c cs)
    have hcd : c.isDigit = true := hd c hc
    have hne : ('s' == c) = false := by
      cases hsc : ('s' == c) with
      | false => rfl
      | true =>
        have heq : 's' = c := eq_of_beq hsc
        rw [← heq] at hcd
        exact absurd hcd (by decide)
    have hlead : leadsList statusPat (c :: cs) = false := by
      simp [statusPat, leadsList, hne]
    unfold tryMatch
    rw [hlead]
    simp

theorem patternAt_lt_length (l : List Char) (i : Nat) (h : patternAt l i = true) :
    i < l.length := by
  by_contra hge
  have hnil : List.drop i l = [] := List.drop_eq_nil_of_le (Nat.le_of_not_lt hge)
  unfold patternAt at h
  rw [hnil] at h
  simp [statusPat, leadsList] at h

theorem tryMatch_drop_eq (l : List Char) (i : Nat) :
    tryMatch (List.drop i l) =
      if patternAt l i = true then some (digitRun (List.drop (i + 7) l)) else none := by
  rw [tryMatch_eq, patternAt_shift, List.drop_drop]

/-! ## Claim C1: extractTweetId extracts the digit run of the first
`status/<digits>` occurrence, and otherwise returns the input unchanged -/

/-- C1: for every input string, `extractTweetId` returns the digit run of
the first occurrence of the pattern `status/` immediately followed by at
least one digit; when no such pattern occurs anywhere (equivalently, at any
index below the length), the input is returned unchanged. -/
theorem extractTweetId_c1 (s : String) :
    ((∀ i < s.data.length, patternAt s.data i = false) → extractTweetId s = s) ∧
    (∀ i, patternAt s.data i = true → (∀ j < i, patternAt s.data j = false) →
      extractTweetId s = String.mk (digitRun (List.drop (i + 7) s.data))) := by
  constructor
  · intro h
    have hall : ∀ i, tryMatch (List.drop i s.data) = none := by
      intro i
      rw [tryMatch_drop_eq]
      by_cases hi : i < s.data.length
      · rw [h i hi]; simp
      · have hfalse : patternAt s.data i = false := by
          cases hx : patternAt s.data i with
          | false => rfl
          | true => exact absurd (patternAt_lt_length _ _ hx) hi
        rw [hfalse]; simp
    unfold extractTweetId
    rw [findStatusMatch_none_of s.data hall]
  · intro i hi hmin
    have hsome : tryMatch (List.drop i s.data) =
        some (digitRun (List.drop (i + 7) s.data)) := by
      rw [tryMatch_drop_eq, hi]; simp
    have hnone : ∀ j < i, tryMatch (List.drop j s.data) = none := by
      intro j hj
      rw [tryMatch_drop_eq, hmin j hj]; simp
    unfold extractTweetId
    rw [findStatusMatch_some_of s.data i _ hnone hsome]

/-- Witness for C1, covering the three examples of the specification: a URL
with a `status/` segment yields the digit run, a bare id passes through, and
`status/` followed by non-digits passes through. -/
theorem extractTweetId_c1_witness :
    extractTweetId "https://x.com/user/status/12345" = "12345" ∧
    extractTweetId "12345" = "12345" ∧
    extractTweetId "status/xyz" = "status/xyz" := by
  refine ⟨?_, ?_, ?_⟩
  · have h := (extractTweetId_c1 "https://x.com/user/status/12345").2 19 (by decide) (by decide)
    rw [h]; decide
  · exact (extractTweetId_c1 "12345").1 (by decide)
  · exact (extractTweetId_c1 "status/xyz").1 (by decide)

theorem tryMatch_some_shape (l r : List Char) (h : tryMatch l = some r) :
    r = digitRun (List.drop 7 l) := by
  rw [tryMatch_eq] at h
  by_cases hp : patternAt l 0 = true
  · rw [if_pos hp] at h; simpa using h.symm
  · rw [if_neg hp] at h; exact absurd h (by simp)

/-! ## Claim C9: extractTweetId is idempotent -/

/-- C9: applying `extractTweetId` twice gives the same result as applying it
once: an extracted result is a pure digit string, in which the pattern
`status/<digits>` cannot occur, so it passes through unchanged. -/
theorem extractTweetId_c9 (s : String) :
    extractTweetId (extractTweetId s) = extractTweetId s := by
  cases h : findStatusMatch s.data with
  | none =>
    have h1 : extractTweetId s = s := by unfold extractTweetId; rw [h]
    simp only [h1]
  | some r =>
    have h1 : extractTweetId s = String.mk r := by unfold extractTweetId; rw [h]
    obtain ⟨m, hm⟩ := findStatusMatch_some_imp _ _ h
    have hr : r = digitRun (List.drop 7 m) := tryMatch_some_shape _ _ hm
    have hdig : ∀ c ∈ r, c.isDigit = true := by
      rw [hr]; exact fun c hc => digitRun_digits _ c hc
    have hnone : findStatusMatch (String.mk r).data = none :=
      findStatusMatch_none_of r (digits_no_match r hdig)
    rw [h1]
    unfold extractTweetId
    rw [hnone]

/-! ## Claim C2: empty required input -/

/-- Counterexample to C2 as stated: in the sentiment-test flow, an empty
required input issues no request but also displays NO validation message —
the run produces no DOM effect at all, contradicting "a validation message
is displayed in that feature's error region" for this flow. -/
theorem testSentiment_c2_counterexample :
    (testSentimentRun "" (FetchOutcome.fail "network down")).2 = none ∧
    ¬ ∃ id msg, DomEffect.showError id msg ∈
      (testSentimentRun "" (FetchOutcome.fail "network down")).1 := by
  refine ⟨rfl, ?_⟩
  rintro ⟨id, msg, hmem⟩
  have h : (testSentimentRun "" (FetchOutcome.fail "network down")).1 = [] := rfl
  rw [h] at hmem
  exact List.not_mem_nil _ hmem

/-- C2 (amended): with empty required input, every flow aborts without a
request; the six flows with an error region render their validation message
there, while the sentiment-test flow aborts silently with no message. -/
theorem emptyInput_validation_c2 :
    (∀ oc : FetchOutcome UserInfo, getUserProfileRun "" oc =
      ([.showError "profileError" "Please enter a username"], none)) ∧
    (∀ mx (oc : FetchOutcome TweetsPayload), getUserTweetsRun "" mx oc =
      ([.showError "tweetsError" "Please enter a username"], none)) ∧
    (∀ oc : FetchOutcome ReplyPayload, analyzeRepliesRun "" oc =
      ([.showError "replyError" "Please enter a tweet ID or URL"], none)) ∧
    (∀ u1 u2 (oc : FetchOutcome CompareUsersPayload), u1 = "" ∨ u2 = "" →
      compareUsersRun u1 u2 oc =
        ([.showError "compareUsersError" "Please enter both usernames"], none)) ∧
    (∀ i1 i2 (oc : FetchOutcome CompareTweetsPayload), i1 = "" ∨ i2 = "" →
      compareTweetsRun i1 i2 oc =
        ([.showError "compareTweetsError" "Please enter both tweet IDs"], none)) ∧
    (∀ mx (oc : FetchOutcome SearchPayload), searchAndAnalyzeRun "" mx oc =
      ([.showError "searchError" "Please enter a search query"], none)) ∧
    (∀ oc : FetchOutcome TestPayload, testSentimentRun "" oc = ([], none)) := by
  have he : extractTweetId "" = "" := rfl
  refine ⟨?_, ?_, ?_, ?_, ?_, ?_, ?_⟩
  · intro oc; simp [getUserProfileRun, getUserProfileStart]
  · intro mx oc; simp [getUserTweetsRun, getUserTweetsStart]
  · intro oc; simp [analyzeRepliesRun, analyzeRepliesStart, he]
  · intro u1 u2 oc h
    rcases h with h | h <;> subst h <;>
      simp [compareUsersRun, compareUsersStart]
  · intro i1 i2 oc h
    rcases h with h | h <;> subst h <;>
      simp [compareTweetsRun, compareTweetsStart, he]
  · intro mx oc; simp [searchAndAnalyzeRun, searchAndAnalyzeStart]
  · intro oc; simp [testSentimentRun, testSentimentStart]

/-- Witness for C2 (amended), instantiating the hypothesis-bearing conjuncts
at concrete inputs. -/
theorem emptyInput_validation_c2_witness :
    compareUsersRun "" "bob" (FetchOutcome.fail "x") =
      ([.showError "compareUsersError" "Please enter both usernames"], none) ∧
    compareTweetsRun "9" "" (FetchOutcome.fail "x") =
      ([.showError "compareTweetsError" "Please enter both tweet IDs"], none) ∧
    getUserProfileRun "" (FetchOutcome.fail "x") =
      ([.showError "profileError" "Please enter a username"], none) :=
  ⟨emptyInput_validation_c2.2.2.2.1 "" "bob" _ (Or.inl rfl),
   emptyInput_validation_c2.2.2.2.2.1 "9" "" _ (Or.inr rfl),
   emptyInput_validation_c2.1 _⟩

/-! ## Claim C3: backend-reported failure rendering -/

/-- Counterexample to C3 as stated: in the sentiment-test flow a response
with `success=false` and `error="X"` displays nothing — no error element is
written at all, contradicting "the flow's feature-scoped error region
displays exactly X" for this flow. -/
theorem testSentiment_c3_counterexample :
    ¬ ∃ id, DomEffect.showError id "X" ∈
      (testSentimentRun "hello"
        (FetchOutcome.ok ⟨false, "X", ⟨"Neutral", 0, "hello", "hello"⟩⟩)).1 := by
  rintro ⟨id, hmem⟩
  have h : (testSentimentRun "hello"
      (FetchOutcome.ok ⟨false, "X", ⟨"Neutral", 0, "hello", "hello"⟩⟩)).1 = [] := rfl
  rw [h] at hmem
  exact List.not_mem_nil _ hmem

/-- C3 (amended): for the six flows with an error region, a `success=false`
response with error `X` leaves the error region showing exactly `X` and
active, and leaves the result region unpopulated (contents untouched,
inactive); the sentiment-test flow performs no DOM change at all on such a
response. -/
theorem failure_rendering_c3 :
    (∀ (d0 : DomState) (u err : String) (p : UserInfo), u ≠ "" →
      applyEffects d0 (getUserProfileRun u (.ok ⟨false, err, p⟩)).1 "profileError" =
        ⟨err, (d0 "profileError").html, true⟩ ∧
      applyEffects d0 (getUserProfileRun u (.ok ⟨false, err, p⟩)).1 "profileResults" =
        ⟨(d0 "profileResults").text, (d0 "profileResults").html, false⟩) ∧
    (∀ (d0 : DomState) (u mx err : String) (p : TweetsPayload), u ≠ "" →
      applyEffects d0 (getUserTweetsRun u mx (.ok ⟨false, err, p⟩)).1 "tweetsError" =
        ⟨err, (d0 "tweetsError").html, true⟩ ∧
      applyEffects d0 (getUserTweetsRun u mx (.ok ⟨false, err, p⟩)).1 "tweetsResults" =
        ⟨(d0 "tweetsResults").text, (d0 "tweetsResults").html, false⟩) ∧
    (∀ (d0 : DomState) (inp err : String) (p : ReplyPayload), extractTweetId inp ≠ "" →
      applyEffects d0 (analyzeRepliesRun inp (.ok ⟨false, err, p⟩)).1 "replyError" =
        ⟨err, (d0 "replyError").html, true⟩ ∧
      applyEffects d0 (analyzeRepliesRun inp (.ok ⟨false, err, p⟩)).1 "replyResults" =
        ⟨(d0 "replyResults").text, (d0 "replyResults").html, false⟩) ∧
    (∀ (d0 : DomState) (u1 u2 err : String) (p : CompareUsersPayload),
      ¬(u1 = "" ∨ u2 = "") →
      applyEffects d0 (compareUsersRun u1 u2 (.ok ⟨false, err, p⟩)).1 "compareUsersError" =
        ⟨err, (d0 "compareUsersError").html, true⟩ ∧
      applyEffects d0 (compareUsersRun u1 u2 (.ok ⟨false, err, p⟩)).1 "compareUsersResults" =
        ⟨(d0 "compareUsersResults").text, (d0 "compareUsersResults").html, false⟩) ∧
    (∀ (d0 : DomState) (i1 i2 err : String) (p : CompareTweetsPayload),
      ¬(extractTweetId i1 = "" ∨ extractTweetId i2 = "") →
      applyEffects d0 (compareTweetsRun i1 i2 (.ok ⟨false, err, p⟩)).1 "compareTweetsError" =
        ⟨err, (d0 "compareTweetsError").html, true⟩ ∧
      applyEffects d0 (compareTweetsRun i1 i2 (.ok ⟨false, err, p⟩)).1 "compareTweetsResults" =
        ⟨(d0 "compareTweetsResults").text, (d0 "compareTweetsResults").html, false⟩) ∧
    (∀ (d0 : DomState) (q mx err : String) (p : SearchPayload), q ≠ "" →
      applyEffects d0 (searchAndAnalyzeRun q mx (.ok ⟨false, err, p⟩)).1 "searchError" =
        ⟨err, (d0 "searchError").html, true⟩ ∧
      applyEffects d0 (searchAndAnalyzeRun q mx (.ok ⟨false, err, p⟩)).1 "searchResults" =
        ⟨(d0 "searchResults").text, (d0 "searchResults").html, false⟩) ∧
    (∀ (d0 : DomState) (t err : String) (p : TestPayload), t ≠ "" →
      applyEffects d0 (testSentimentRun t (.ok ⟨false, err, p⟩)).1 = d0) := by
  refine ⟨?_, ?_, ?_, ?_, ?_, ?_, ?_⟩
  · intro d0 u err p h
    simp only [getUserProfileRun, getUserProfileStart]
    rw [if_neg h]
    exact ⟨rfl, rfl⟩
  · intro d0 u mx err p h
    simp only [getUserTweetsRun, getUserTweetsStart]
    rw [if_neg h]
    exact ⟨rfl, rfl⟩
  · intro d0 inp err p h
    simp only [analyzeRepliesRun, analyzeRepliesStart]
    rw [if_neg h]
    exact ⟨rfl, rfl⟩
  · intro d0 u1 u2 err p h
    simp only [compareUsersRun, compareUsersStart]
    rw [if_neg h]
    exact ⟨rfl, rfl⟩
  · intro d0 i1 i2 err p h
    simp only [compareTweetsRun, compareTweetsStart]
    rw [if_neg h]
    exact ⟨rfl, rfl⟩
  · intro d0 q mx err p h
    simp only [searchAndAnalyzeRun, searchAndAnalyzeStart]
    rw [if_neg h]
    exact ⟨rfl, rfl⟩
  · intro d0 t err p h
    simp only [testSentimentRun, testSentimentStart]
    rw [if_neg h]
    rfl

/-- Witness for C3 (amended): each conjunct instantiated at concrete inputs,
a concrete response with `success=false`, `error="X"`, and the blank DOM. -/
theorem failure_rendering_c3_witness :
    applyEffects dom0 (getUserProfileRun "alice" (.ok ⟨false, "X", uinfo0⟩)).1 "profileError" =
      ⟨"X", "", true⟩ ∧
    applyEffects dom0 (getUserTweetsRun "alice" "5" (.ok ⟨false, "X", tweetsPayload0⟩)).1
      "tweetsError" = ⟨"X", "", true⟩ ∧
    applyEffects dom0 (analyzeRepliesRun "9" (.ok ⟨false, "X", replyPayload0plain⟩)).1
      "replyError" = ⟨"X", "", true⟩ ∧
    applyEffects dom0 (compareUsersRun "a" "b" (.ok ⟨false, "X", comparePayload0⟩)).1
      "compareUsersError" = ⟨"X", "", true⟩ ∧
    applyEffects dom0 (compareTweetsRun "1" "2" (.ok ⟨false, "X", compareTweetsPayload0⟩)).1
      "compareTweetsError" = ⟨"X", "", true⟩ ∧
    applyEffects dom0 (searchAndAnalyzeRun "q" "5" (.ok ⟨false, "X", searchPayload0⟩)).1
      "searchError" = ⟨"X", "", true⟩ ∧
    applyEffects dom0 (testSentimentRun "hi" (.ok ⟨false, "X", test92⟩)).1 = dom0 :=
  ⟨(failure_rendering_c3.1 dom0 "alice" "X" uinfo0 (by decide)).1,
   (failure_rendering_c3.2.1 dom0 "alice" "5" "X" tweetsPayload0 (by decide)).1,
   (failure_rendering_c3.2.2.1 dom0 "9" "X" replyPayload0plain (by decide)).1,
   (failure_rendering_c3.2.2.2.1 dom0 "a" "b" "X" comparePayload0 (by decide)).1,
   (failure_rendering_c3.2.2.2.2.1 dom0 "1" "2" "X" compareTweetsPayload0 (by decide)).1,
   (failure_rendering_c3.2.2.2.2.2.1 dom0 "q" "5" "X" searchPayload0 (by decide)).1,
   failure_rendering_c3.2.2.2.2.2.2 dom0 "hi" "X" test92 (by decide)⟩

/-! ## Claim C4: chart-registry lifecycle -/

theorem mem_liveCharts (st : ChartSt) (id : String) (c : Nat) :
    c ∈ liveCharts st id ↔ (id, c) ∈ st.created ∧ c ∉ st.destroyed := by
  unfold liveCharts
  rw [List.mem_map]
  constructor
  · rintro ⟨⟨pi, pc⟩, hp, rfl⟩
    rw [List.mem_filter] at hp
    obtain ⟨hmem, hcond⟩ := hp
    rw [decide_eq_true_eq] at hcond
    obtain ⟨hid, hnd⟩ := hcond
    dsimp at hid hnd ⊢
    subst hid
    exact ⟨hmem, hnd⟩
  · rintro ⟨hmem, hnd⟩
    refine ⟨(id, c), ?_, rfl⟩
    rw [List.mem_filter]
    exact ⟨hmem, by rw [decide_eq_true_eq]; exact ⟨rfl, hnd⟩⟩

theorem liveCharts_unique (st : ChartSt) (h : ChartInv st) (id : String) (c1 c2 : Nat)
    (h1 : c1 ∈ liveCharts st id) (h2 : c2 ∈ liveCharts st id) : c1 = c2 := by
  have e1 := h.1 id c1 h1
  have e2 := h.1 id c2 h2
  rw [e1] at e2
  exact Option.some.inj e2

theorem createChart_destroyed (st : ChartSt) (cid : String) :
    (createChart cid st).destroyed =
      (match st.reg cid with | some c => c :: st.destroyed | none => st.destroyed) := by
  cases hreg : st.reg cid <;> simp [createChart, hreg]

theorem createChart_created (st : ChartSt) (cid : String) :
    (createChart cid st).created = (cid, st.nextId) :: st.created := by
  cases hreg : st.reg cid <;> simp [createChart, hreg]

theorem createChart_reg (st : ChartSt) (cid : String) :
    (createChart cid st).reg = fun id => if id = cid then some st.nextId else st.reg id := by
  cases hreg : st.reg cid <;> simp [createChart, hreg]

theorem createChart_nextId (st : ChartSt) (cid : String) :
    (createChart cid st).nextId = st.nextId + 1 := by
  cases hreg : st.reg cid <;> simp [createChart, hreg]

theorem chartInv_preserved (st : ChartSt) (cid : String) (h : ChartInv st) :
    ChartInv (createChart cid st) := by
  obtain ⟨h1, h2, h3, h4⟩ := h
  have hdest_sub : ∀ c, c ∈ st.destroyed → c ∈ (createChart cid st).destroyed := by
    intro c hc
    rw [createChart_destroyed]
    cases st.reg cid with
    | none => exact hc
    | some c0 => exact List.mem_cons_of_mem _ hc
  have hdest_lt : ∀ c ∈ (createChart cid st).destroyed, c < st.nextId := by
    intro c hc
    rw [createChart_destroyed] at hc
    cases hreg : st.reg cid with
    | none => rw [hreg] at hc; exact h3 c hc
    | some c0 =>
      rw [hreg] at hc
      rcases List.mem_cons.1 hc with rfl | hc
      · exact h2 (cid, c) (h4 cid c hreg)
      · exact h3 c hc
  refine ⟨?_, ?_, ?_, ?_⟩
  · intro id c hc
    rw [mem_liveCharts, createChart_created] at hc
    obtain ⟨hmem, hnd⟩ := hc
    rw [createChart_reg]
    dsimp only
    rcases List.mem_cons.1 hmem with heq | hold
    · obtain ⟨rfl, rfl⟩ := Prod.mk.inj heq
      rw [if_pos rfl]
    · have hndold : c ∉ st.destroyed := fun hx => hnd (hdest_sub c hx)
      have hlive : c ∈ liveCharts st id := (mem_liveCharts st id c).2 ⟨hold, hndold⟩
      have hregid := h1 id c hlive
      by_cases hid : id = cid
      · subst hid
        exfalso
        apply hnd
        rw [createChart_destroyed, hregid]
        exact List.mem_cons_self c _
      · rw [if_neg hid]; exact hregid
  · intro p hp
    rw [createChart_created] at hp
    rw [createChart_nextId]
    rcases List.mem_cons.1 hp with rfl | hp
    · exact Nat.lt_succ_self _
    · exact Nat.lt_succ_of_lt (h2 p hp)
  · intro c hc
    rw [createChart_nextId]
    exact Nat.lt_succ_of_lt (hdest_lt c hc)
  · intro id c hreg2
    rw [createChart_reg] at hreg2
    dsimp only at hreg2
    rw [createChart_created]
    by_cases hid : id = cid
    · subst hid
      rw [if_pos rfl] at hreg2
      obtain rfl := Option.some.inj hreg2
      exact List.mem_cons_self _ _
    · rw [if_neg hid] at hreg2
      exact List.mem_cons_of_mem _ (h4 id c hreg2)

/-- C4: from any state satisfying the registry invariant, `createChart`
preserves the invariant, destroys the previously registered chart of the
canvas before registering the replacement, and leaves at most one live chart
per canvas id — in particular two successive `createChart` calls on the same
canvas id never leave two live chart objects for it. -/
theorem createChart_c4 (st : ChartSt) (cid : String) (h : ChartInv st) :
    ChartInv (createChart cid st) ∧
    (∀ c, st.reg cid = some c → c ∈ (createChart cid st).destroyed) ∧
    (∀ id c1 c2, c1 ∈ liveCharts (createChart cid st) id →
      c2 ∈ liveCharts (createChart cid st) id → c1 = c2) ∧
    (∀ c1 c2, c1 ∈ liveCharts (createChart cid (createChart cid st)) cid →
      c2 ∈ liveCharts (createChart cid (createChart cid st)) cid → c1 = c2) := by
  have hinv1 := chartInv_preserved st cid h
  have hinv2 := chartInv_preserved _ cid hinv1
  refine ⟨hinv1, ?_, ?_, ?_⟩
  · intro c hregc
    rw [createChart_destroyed, hregc]
    exact List.mem_cons_self c _
  · exact fun id c1 c2 hc1 hc2 => liveCharts_unique _ hinv1 id c1 c2 hc1 hc2
  · exact fun c1 c2 hc1 hc2 => liveCharts_unique _ hinv2 cid c1 c2 hc1 hc2

/-- Witness for C4: starting from the empty registry, creating twice on the
same canvas destroys the first chart (number 0), and the invariant holds at
the start and after one step. -/
theorem createChart_c4_witness :
    ChartInv chartSt0 ∧
    ChartInv (createChart "a" chartSt0) ∧
    0 ∈ (createChart "a" (createChart "a" chartSt0)).destroyed := by
  have h0 : ChartInv chartSt0 := by
    refine ⟨?_, ?_, ?_, ?_⟩ <;> simp [chartSt0, liveCharts]
  have h := createChart_c4 chartSt0 "a" h0
  have h2 := createChart_c4 (createChart "a" chartSt0) "a" h.1
  refine ⟨h0, h.1, ?_⟩
  exact h2.2.1 0 rfl

/-! ## Claim C5: tab switching mutual exclusion -/

theorem countActive_single (ids : List String) (x : String) (hn : ids.Nodup) (hx : x ∈ ids) :
    countActive ids (fun id => if id = x then true else false) = 1 := by
  have hfun : (fun id => if id = x then true else false) = (fun id => id == x) := by
    funext id
    by_cases h : id = x
    · simp [h]
    · simp [h]
  unfold countActive
  rw [hfun]
  have h1 : (ids.filter (fun id => id == x)).length = ids.count x := by
    rw [List.count, List.countP_eq_length_filter]
  rw [h1]
  exact List.count_eq_one_of_mem hn hx

/-- C5: after `switchTab`, over any duplicate-free universe of panel ids
containing the target panel and any duplicate-free universe of selector ids
containing the triggering selector, exactly one panel and exactly one
selector carry the active state, whatever the prior state was. -/
theorem switchTab_c5 (panels selectors : List String) (tabName target : String) (d : TabDom)
    (hpn : panels.Nodup) (hsn : selectors.Nodup)
    (hp : (tabName ++ "-tab") ∈ panels) (ht : target ∈ selectors) :
    countActive panels (switchTab tabName target d).contentActive = 1 ∧
    countActive selectors (switchTab tabName target d).tabActive = 1 := by
  constructor
  · have h := countActive_single panels (tabName ++ "-tab") hpn hp
    simpa [switchTab] using h
  · have h := countActive_single selectors target hsn ht
    simpa [switchTab] using h

/-- Witness for C5: a concrete two-panel, two-selector page, switching to the
`home` tab from a state where everything was active. -/
theorem switchTab_c5_witness :
    countActive ["home-tab", "reply-tab"]
      (switchTab "home" "btnHome" ⟨fun _ => true, fun _ => true⟩).contentActive = 1 ∧
    countActive ["btnHome", "btnReply"]
      (switchTab "home" "btnHome" ⟨fun _ => true, fun _ => true⟩).tabActive = 1 :=
  switchTab_c5 ["home-tab", "reply-tab"] ["btnHome", "btnReply"] "home" "btnHome"
    ⟨fun _ => true, fun _ => true⟩ (by decide) (by decide) (by decide) (by decide)

/-! ## Claim C6: zero-reply rendering -/

/-- Counterexample to C6 as stated: a successful reply-analysis response with
`total_replies = 0` whose charts carry a `sentiment_distribution` series DOES
create a chart — the guard at line 329 tests only the charts fields, not the
reply count. -/
theorem displayReplyAnalysis_c6_counterexample :
    replyPayload0chart.reply_analysis.total_replies = 0 ∧
    DomEffect.chart "replyChart" "pie" "dist" ∈ displayReplyAnalysis replyPayload0chart := by
  refine ⟨rfl, ?_⟩
  simp [displayReplyAnalysis, replyPayload0chart]

/-- C6 (amended): with `total_replies = 0` the rendered markup is the header
followed by the literal no-replies message (no stats, no sample replies), and
a chart is created exactly when the response's charts carry a
`sentiment_distribution` series — independently of the reply count. -/
theorem displayReplyAnalysis_c6 (data : ReplyPayload)
    (h : data.reply_analysis.total_replies = 0) :
    displayReplyAnalysis data =
      [.setHTML "replyResults"
          (replyHeadHtml data ++ "<p>No replies found for this tweet.</p>"),
        .showResults "replyResults"] ++
      (match replySentDist data with
       | some cd => [.chart "replyChart" "pie" cd]
       | none => []) ∧
    (replySentDist data = none →
      ∀ cv t cd, DomEffect.chart cv t cd ∉ displayReplyAnalysis data) ∧
    (∀ cd, replySentDist data = some cd →
      DomEffect.chart "replyChart" "pie" cd ∈ displayReplyAnalysis data) := by
  have hne : ¬ data.reply_analysis.total_replies > 0 := by rw [h]; decide
  refine ⟨?_, ?_, ?_⟩
  · unfold displayReplyAnalysis replyBodyHtml replySentDist
    rw [if_neg hne]
    cases data.charts with
    | none => rfl
    | some cs => rfl
  · intro hnone cv t cd hmem
    unfold displayReplyAnalysis at hmem
    unfold replySentDist at hnone
    cases hc : data.charts with
    | none =>
      rw [hc] at hmem
      simp at hmem
    | some cs =>
      rw [hc] at hmem hnone
      dsimp only at hmem hnone
      cases hcs : cs.sentiment_distribution with
      | none =>
        rw [hcs] at hmem
        simp at hmem
      | some cd2 =>
        rw [hcs] at hnone
        exact absurd hnone (by simp)
  · intro cd hsome
    unfold displayReplyAnalysis
    unfold replySentDist at hsome
    cases hc : data.charts with
    | none =>
      rw [hc] at hsome
      exact absurd hsome (by simp)
    | some cs =>
      rw [hc] at hsome
      dsimp only at hsome
      cases hcs : cs.sentiment_distribution with
      | none => rw [hcs] at hsome; exact absurd hsome (by simp)
      | some cd2 =>
        rw [hcs] at hsome
        obtain rfl := Option.some.inj hsome
        dsimp only
        rw [hcs]
        simp

/-- Witness for C6 (amended): the zero-reply payload without chart data
renders the no-replies message and creates no chart. -/
theorem displayReplyAnalysis_c6_witness :
    displayReplyAnalysis replyPayload0plain =
      [.setHTML "replyResults"
          (replyHeadHtml replyPayload0plain ++ "<p>No replies found for this tweet.</p>"),
        .showResults "replyResults"] ∧
    DomEffect.chart "replyChart" "pie" "dist" ∉ displayReplyAnalysis replyPayload0plain := by
  have h := displayReplyAnalysis_c6 replyPayload0plain rfl
  refine ⟨?_, h.2.1 rfl "replyChart" "pie" "dist"⟩
  have h1 := h.1
  simpa [replyPayload0plain, replySentDist] using h1

/-! ## Claim C8: fixed comparison depth -/

/-- C8: every user-comparison invocation that issues a request sends exactly
`max_tweets = 50`, with the two usernames as the only user-controlled
fields. -/
theorem compareUsers_depth_c8 (u1 u2 : String) (oc : FetchOutcome CompareUsersPayload)
    (h : ¬(u1 = "" ∨ u2 = "")) :
    (compareUsersRun u1 u2 oc).2 =
      some ⟨"/api/compare-users",
        [("username1", .str u1), ("username2", .str u2), ("max_tweets", .num 50)]⟩ := by
  simp only [compareUsersRun, compareUsersStart]
  rw [if_neg h]

/-- Witness for C8 at two concrete usernames. -/
theorem compareUsers_depth_c8_witness :
    (compareUsersRun "alice" "bob" (FetchOutcome.fail "x")).2 =
      some ⟨"/api/compare-users",
        [("username1", .str "alice"), ("username2", .str "bob"), ("max_tweets", .num 50)]⟩ :=
  compareUsers_depth_c8 "alice" "bob" _ (by decide)

/-! ## Claim C10: whitespace passes validation -/

/-- C10: validation only rejects the empty string; a non-empty all-whitespace
required input passes, no validation error is shown, and the request carrying
the whitespace value verbatim is issued (profile flow and user-comparison
flow). -/
theorem whitespace_validation_c10 (s1 s2 : String)
    (h1 : s1 ≠ "") (_hw1 : ∀ c ∈ s1.data, c.isWhitespace = true)
    (h2 : s2 ≠ "") (_hw2 : ∀ c ∈ s2.data, c.isWhitespace = true) :
    getUserProfileStart s1 =
      ([.showLoading "profileLoading", .hideError "profileError", .hideResults "profileResults"],
        some ⟨"/api/user-info", [("username", .str s1)]⟩) ∧
    compareUsersStart s1 s2 =
      ([.showLoading "compareUsersLoading", .hideError "compareUsersError",
        .hideResults "compareUsersResults"],
        some ⟨"/api/compare-users",
          [("username1", .str s1), ("username2", .str s2), ("max_tweets", .num 50)]⟩) := by
  constructor
  · rw [getUserProfileStart, if_neg h1]
  · rw [compareUsersStart, if_neg (not_or.mpr ⟨h1, h2⟩)]

/-- Witness for C10 at concrete whitespace inputs (a space and a two-space
string). -/
theorem whitespace_validation_c10_witness :
    getUserProfileStart " " =
      ([.showLoading "profileLoading", .hideError "profileError", .hideResults "profileResults"],
        some ⟨"/api/user-info", [("username", .str " ")]⟩) ∧
    compareUsersStart " " "  " =
      ([.showLoading "compareUsersLoading", .hideError "compareUsersError",
        .hideResults "compareUsersResults"],
        some ⟨"/api/compare-users",
          [("username1", .str " "), ("username2", .str "  "), ("max_tweets", .num 50)]⟩) :=
  whitespace_validation_c10 " " "  " (by decide) (by decide) (by decide) (by decide)

/-! ## Claim C7: confidence formatting -/

set_option maxRecDepth 8000 in
/-- C7: a fractional confidence of 0.873 on a tweet card and on a reply card
renders as `87.3%` (scaled by 100, one decimal place), while the
sentiment-test flow renders its whole-number confidence 92 as `92%`
(no scaling, no decimals). -/
theorem confidence_format_c7 :
    hasSub "(87.3%)".data (tweetCard "positive" tweet873).data = true ∧
    hasSub "(87.3%)".data (replyCard reply873).data = true ∧
    hasSub "(92%)".data (testHtml test92).data = true := by
  have hf : fixed1 ((873/1000 : ℚ) * 100) = "87.3" := by
    have h : ⌊((873/1000 : ℚ) * 100) * 10 + 1 / 2⌋ = (873 : ℤ) := by
      rw [Int.floor_eq_iff]
      norm_num
    rw [fixed1, h]
    decide
  refine ⟨?_, ?_, ?_⟩
  · simp only [tweetCard, tweet873]
    rw [hf]
    decide
  · simp only [replyCard, reply873]
    rw [hf]
    decide
  · simp only [testHtml, test92]
    decide
